import Mathlib

/-!
Shallow embedding of the tracing-setup crate (src/lib.rs, src/tracing_setup.rs,
src/jaeger.rs).

The crate wires pre-built logging backends together: given a TracingConfig it
installs exactly one process-wide subscriber topology and optionally returns a
WorkerGuard. We embed the code as pure functions over an explicit World value
(environment variable, local clock reading, whether a global default subscriber
is already installed, and after how many TCP attempts the Jaeger collector
becomes reachable). Each initialization path returns an Outcome together with
the list of observable effects (filesystem operations, prints, sleeps, TCP
attempts, the attempted global-subscriber installation) in program order.

External collaborators (tracing-subscriber, tracing-appender, chrono,
opentelemetry-jaeger) are out of scope per the crate design; where an embedded
definition depends on a collaborator default or message, the doc comment says
so.
-/

/-- Rust: enum TracingMode (tracing_setup.rs, lines 13-24), as compiled WITH the
jaeger cargo feature, so all four variants exist. -/
inductive TracingMode where
  | Console
  | File
  | ConsoleAndFile
  | JaegerLive
deriving DecidableEq, Repr

/-- Rust: enum TracingMode as compiled WITHOUT the jaeger cargo feature: the
cfg-gated JaegerLive variant is absent, leaving a three-variant enum. -/
inductive TracingModeNoJaeger where
  | Console
  | File
  | ConsoleAndFile
deriving DecidableEq, Repr

/-- Rust: struct TracingConfig (tracing_setup.rs, lines 28-59). -/
structure TracingConfig where
  tracing_mode : TracingMode
  env_filter : Option String
  json : Bool
  log_dir : String
  ansi_file : Bool
  lossy_file : Bool
  ansi_console : Bool
  jaeger_hostname : String
deriving DecidableEq, Repr

/-- Rust: impl Default for TracingConfig (tracing_setup.rs, lines 61-75). -/
def TracingConfig.default : TracingConfig :=
  { tracing_mode := TracingMode.Console
    env_filter := none
    json := false
    log_dir := "./logs"
    ansi_file := false
    lossy_file := true
    ansi_console := true
    jaeger_hostname := "localhost" }

/-- A local wall-clock reading, the part of chrono::Local::now() that
create_log_filename formats. -/
structure LocalTime where
  month : Nat
  day : Nat
  year : Nat
  hour : Nat
  minute : Nat
  second : Nat
deriving DecidableEq, Repr

/-- Process/world state the crate observes. -/
structure World where
  /-- Whether a global default subscriber has already been installed in this
  process (the write-once slot of tracing::subscriber::set_global_default). -/
  installed : Bool
  /-- The value of the RUST_LOG environment variable, if set. -/
  rustLog : Option String
  /-- The local clock reading at initialization time. -/
  now : LocalTime
  /-- Number of failed TCP connection attempts to the Jaeger web UI before one
  succeeds; none means the collector is never reachable. -/
  jaegerReachableAfter : Option Nat
deriving DecidableEq, Repr

/-- Collaborator default: EnvFilter::from_default_env().to_string() when
RUST_LOG is unset renders an empty directive list. Modelled from the
tracing-subscriber collaborator, which is out of scope per the crate design. -/
def DEFAULT_ENV_FILTER_DIRECTIVE : String := ""

/-- Collaborator: EnvFilter::from_default_env().to_string() reads RUST_LOG and
renders the directives back to a string. We abstract the collaborator
parse/render round trip as the identity on directive strings, per the crate
design which places filter-expression parsing out of scope. -/
def envFilterFromDefaultEnv (rustLog : Option String) : String :=
  match rustLog with
  | some s => s
  | none => DEFAULT_ENV_FILTER_DIRECTIVE

/-- Rust: fn env_filter (tracing_setup.rs, lines 114-120). The environment is
passed explicitly, so the embedding is a pure function of config and RUST_LOG. -/
def env_filter (config : TracingConfig) (rustLog : Option String) : String :=
  match config.env_filter with
  | some filter => filter
  | none => envFilterFromDefaultEnv rustLog

/-- Zero-pad a numeral to width 2, as the chrono format specifiers %m %d %H %M
%S do. -/
def pad2 (n : Nat) : String :=
  if n < 10 then "0" ++ toString n else toString n

/-- Zero-pad a numeral to width 4, as the chrono format specifier %Y does. -/
def pad4 (n : Nat) : String :=
  if n < 10 then "000" ++ toString n
  else if n < 100 then "00" ++ toString n
  else if n < 1000 then "0" ++ toString n
  else toString n

/-- The chrono format string "%m-%d-%Y_%H-%M-%S" applied to a local time. -/
def formatTimestamp (t : LocalTime) : String :=
  pad2 t.month ++ "-" ++ pad2 t.day ++ "-" ++ pad4 t.year ++ "_" ++
    pad2 t.hour ++ "-" ++ pad2 t.minute ++ "-" ++ pad2 t.second

/-- Rust: fn create_log_filename (tracing_setup.rs, lines 217-220), with the
clock reading passed explicitly. -/
def create_log_filename (log_dir : String) (now : LocalTime) : String :=
  log_dir ++ "/log_" ++ formatTimestamp now ++ ".txt"

/-- Models std::path::Path::parent as used by create_parent_directory
(tracing_setup.rs, lines 224-233) on the slash-separated paths this crate
produces: drop the final path component. -/
def parent_of (path : String) : String :=
  String.intercalate "/" ((path.splitOn "/").dropLast)

/-- Where an installed formatter writes. The default writer of FmtSubscriber
and of fmt::layer() is stdout; with_writer(non_blocking) swaps in the
non-blocking file writer produced by file_writer. -/
inductive SinkWriter where
  | stdout
  | nonBlockingFile (path : String) (lossy : Bool)
deriving DecidableEq, Repr

/-- The span-lifecycle points at which a formatter emits synthesized events:
the bitflags of tracing_subscriber fmt::format::FmtSpan. -/
structure SpanEvents where
  onNew : Bool
  onEnter : Bool
  onExit : Bool
  onClose : Bool
deriving DecidableEq, Repr

/-- FmtSpan::CLOSE: synthesize one event when a span closes, nothing at
creation, enter or exit. -/
def FMT_SPAN_CLOSE : SpanEvents := ⟨false, false, false, true⟩

/-- FmtSpan::NONE, the collaborator default span-event setting of a fmt layer
that never calls with_span_events. -/
def FMT_SPAN_NONE : SpanEvents := ⟨false, false, false, false⟩

/-- Rust: pub const DEFAULT_SPAN_EVENTS: FmtSpan = FmtSpan::CLOSE
(tracing_setup.rs, line 9). -/
def DEFAULT_SPAN_EVENTS : SpanEvents := FMT_SPAN_CLOSE

/-- One formatting layer as configured by a fmt::layer() builder chain:
destination writer, span-event policy, ANSI flag, and whether .json() was
applied. The source never attaches a per-layer filter (with_filter is never
called), so there is no filter field. -/
structure FmtLayerSpec where
  writer : SinkWriter
  spanEvents : SpanEvents
  ansi : Bool
  json : Bool
deriving DecidableEq, Repr

/-- Collaborator default: tracing_subscriber::fmt::Layer::default() writes to
stdout, synthesizes no span-lifecycle events (FmtSpan::NONE), has ANSI on and
is not JSON. Used by init_jaeger (jaeger.rs, line 15). -/
def default_fmt_layer : FmtLayerSpec :=
  { writer := SinkWriter.stdout
    spanEvents := FMT_SPAN_NONE
    ansi := true
    json := false }

/-- One layer of a layered registry subscriber, in the order the source adds
them with .with(..): a formatting layer, a global EnvFilter layer carrying its
resolved directive string, or the OpenTelemetry layer shipping spans to the
Jaeger agent endpoint under a service name. -/
inductive RegLayer where
  | fmtLayer (l : FmtLayerSpec)
  | envFilterLayer (directive : String)
  | otelLayer (endpoint : String) (serviceName : String)
deriving DecidableEq, Repr

/-- The value passed to tracing::subscriber::set_global_default (or installed
via SubscriberInitExt::init): either a FmtSubscriber built by
FmtSubscriber::builder(), or a layered registry. -/
inductive Subscriber where
  | fmtSub (filter : String) (layer : FmtLayerSpec)
  | registry (layers : List RegLayer)
deriving DecidableEq, Repr

/-- The formatting layers a subscriber topology contains. -/
def Subscriber.fmtLayers : Subscriber → List FmtLayerSpec
  | Subscriber.fmtSub _ l => [l]
  | Subscriber.registry ls =>
      ls.filterMap fun rl =>
        match rl with
        | RegLayer.fmtLayer l => some l
        | _ => none

/-- The resolved filter directive strings gating a subscriber topology: the
with_env_filter string of a FmtSubscriber, or the EnvFilter layers of a
registry. -/
def Subscriber.filterDirectives : Subscriber → List String
  | Subscriber.fmtSub f _ => [f]
  | Subscriber.registry ls =>
      ls.filterMap fun rl =>
        match rl with
        | RegLayer.envFilterLayer d => some d
        | _ => none

/-- Observable effects of the crate, in program order. -/
inductive Event where
  /-- std::fs::create_dir_all on a directory path. -/
  | createDirAll (dir : String)
  /-- std::fs::File::create: create the file, truncating it if it exists. -/
  | createFile (path : String)
  /-- A println! to stdout. -/
  | printLn (s : String)
  /-- One TcpStream::connect attempt to an endpoint and whether it succeeded. -/
  | tcpConnect (endpoint : String) (ok : Bool)
  /-- thread::sleep for the given number of seconds. -/
  | sleepSecs (n : Nat)
  /-- opentelemetry_jaeger new_agent_pipeline().install_simple() with the
  given agent endpoint and service name (jaeger.rs, lines 24-28). -/
  | installJaegerPipeline (endpoint : String) (serviceName : String)
  /-- An attempt to install a subscriber as the process-wide global default. -/
  | setGlobalDefaultAttempt (sub : Subscriber)
deriving DecidableEq, Repr

/-- True on println! events. -/
def Event.isPrint : Event → Bool
  | Event.printLn _ => true
  | _ => false

/-- True on events that build or install a sink: filesystem setup for the file
sink, the Jaeger export pipeline, or the global-subscriber installation. -/
def Event.buildsOrInstallsSink : Event → Bool
  | Event.createDirAll _ => true
  | Event.createFile _ => true
  | Event.installJaegerPipeline _ _ => true
  | Event.setGlobalDefaultAttempt _ => true
  | _ => false

/-- Rust: WorkerGuard (tracing-appender collaborator), the handle owning the
background flush thread of the non-blocking writer for the given log file. -/
structure WorkerGuard where
  filePath : String
deriving DecidableEq, Repr

/-- Collaborator message: the Display of the error
tracing::subscriber::SetGlobalDefaultError returned when a global default
subscriber was already installed. Modelled from the tracing-core collaborator. -/
def GLOBAL_DEFAULT_ALREADY_SET : String :=
  "a global default trace dispatcher has already been set"

/-- The panic payload of set_global_default(..).expect("Failed to set global
default") on a second installation: the source expect string (tracing_setup.rs,
lines 135, 138, 155, 158, 185, 199) followed by the collaborator error. -/
def PANIC_SET_GLOBAL_DEFAULT : String :=
  "Failed to set global default" ++ ": " ++ GLOBAL_DEFAULT_ALREADY_SET

/-- The panic payload of SubscriberInitExt::init (jaeger.rs, line 32) on a
second installation. Expect string modelled from the tracing-subscriber
collaborator, followed by the same collaborator error. -/
def PANIC_SUBSCRIBER_INIT : String :=
  "failed to set the global default subscriber" ++ ": " ++ GLOBAL_DEFAULT_ALREADY_SET

/-- How a call to the initializer ends. -/
inductive Outcome where
  /-- Normal return with the Option of a WorkerGuard. -/
  | ok (guard : Option WorkerGuard)
  /-- The process aborts: a panic with the given payload. -/
  | panic (msg : String)
  /-- The call never returns (an endless wait loop). -/
  | diverge
deriving DecidableEq, Repr

/-- Rust: fn file_writer (tracing_setup.rs, lines 207-214): compute the log
filename, create its parent directory, create (truncating) the log file, and
wrap it in a non-blocking writer with the configured lossy flag, returning the
writer, its guard, and the filesystem effects in order. Filesystem operations
are modelled as succeeding. -/
def file_writer (config : TracingConfig) (now : LocalTime) :
    (SinkWriter × WorkerGuard) × List Event :=
  let filename := create_log_filename config.log_dir now
  ((SinkWriter.nonBlockingFile filename config.lossy_file, WorkerGuard.mk filename),
    [Event.createDirAll (parent_of filename), Event.createFile filename])

/-- Rust: fn configure_file_logging (tracing_setup.rs, lines 123-142). The
source duplicates the finish/set_global_default code across the json branch
because .json() changes the builder type; both branches install the same
builder state, so the embedding records json as a field. -/
def configure_file_logging (w : World) (config : TracingConfig) :
    Outcome × List Event :=
  let ((non_blocking, guard), fsEvents) := file_writer config w.now
  let sub := Subscriber.fmtSub (env_filter config w.rustLog)
    { writer := non_blocking
      spanEvents := DEFAULT_SPAN_EVENTS
      ansi := config.ansi_file
      json := config.json }
  if w.installed then
    (Outcome.panic PANIC_SET_GLOBAL_DEFAULT, fsEvents ++ [Event.setGlobalDefaultAttempt sub])
  else
    (Outcome.ok (some guard), fsEvents ++ [Event.setGlobalDefaultAttempt sub])

/-- Rust: fn configure_console_logging (tracing_setup.rs, lines 145-160). No
writer is configured, so the FmtSubscriber default writer stdout applies. -/
def configure_console_logging (w : World) (config : TracingConfig) :
    Outcome × List Event :=
  let sub := Subscriber.fmtSub (env_filter config w.rustLog)
    { writer := SinkWriter.stdout
      spanEvents := DEFAULT_SPAN_EVENTS
      ansi := config.ansi_console
      json := config.json }
  if w.installed then
    (Outcome.panic PANIC_SET_GLOBAL_DEFAULT, [Event.setGlobalDefaultAttempt sub])
  else
    (Outcome.ok none, [Event.setGlobalDefaultAttempt sub])

/-- Rust: fn configure_combined_logging (tracing_setup.rs, lines 164-202): one
stdout fmt layer, one file fmt layer, and a single EnvFilter layer added to the
registry, in that order. The json and non-json branches build the same layer
state apart from .json() on both fmt layers, recorded as the json field. -/
def configure_combined_logging (w : World) (config : TracingConfig) :
    Outcome × List Event :=
  let ((non_blocking, guard), fsEvents) := file_writer config w.now
  let stdout_layer : FmtLayerSpec :=
    { writer := SinkWriter.stdout
      spanEvents := DEFAULT_SPAN_EVENTS
      ansi := config.ansi_console
      json := config.json }
  let file_layer : FmtLayerSpec :=
    { writer := non_blocking
      spanEvents := DEFAULT_SPAN_EVENTS
      ansi := config.ansi_file
      json := config.json }
  let sub := Subscriber.registry
    [RegLayer.fmtLayer stdout_layer,
     RegLayer.fmtLayer file_layer,
     RegLayer.envFilterLayer (env_filter config w.rustLog)]
  if w.installed then
    (Outcome.panic PANIC_SET_GLOBAL_DEFAULT, fsEvents ++ [Event.setGlobalDefaultAttempt sub])
  else
    (Outcome.ok (some guard), fsEvents ++ [Event.setGlobalDefaultAttempt sub])

/-- Rust: const DEFAULT_JAEGER_PORT: u16 = 6831 (jaeger.rs, line 9). -/
def DEFAULT_JAEGER_PORT : Nat := 6831

/-- The fixed service identifier of the Jaeger pipeline (jaeger.rs, line 25). -/
def JAEGER_SERVICE_NAME : String := "sb-usb"

/-- println! payload of the wait loop (jaeger.rs, line 41). -/
def WAITING_MSG : String := "Waiting for Jaeger to start..."

/-- println! payload after the wait loop succeeds (jaeger.rs, line 44). -/
def FOUND_MSG : String := "Found running Jaeger instance!"

/-- println! payload of the JaegerLive branch of init_tracing
(tracing_setup.rs, line 98). -/
def JAEGER_INIT_MSG : String :=
  "Initializing tracing for live streaming to Jaeger. Make sure you start the Jaeger Docker container."

/-- Whether the TcpStream::connect attempt with the given zero-based index
succeeds, for a collector that becomes reachable after the given number of
failed attempts (never, when none). -/
def connect_ok (reachableAfter : Option Nat) (attempt : Nat) : Bool :=
  match reachableAfter with
  | none => false
  | some k => decide (k ≤ attempt)

/-- Rust: fn wait_for_jaeger (jaeger.rs, lines 37-45), a while loop embedded
with explicit fuel: attempt a TCP connection to hostname:16686; while it
fails, print the waiting message and sleep one second; after a success print
the found message. Returns the event list when the loop finishes within fuel
iterations, none otherwise. -/
def wait_for_jaeger_loop (reachableAfter : Option Nat) (endpoint : String)
    (attempt : Nat) : Nat → Option (List Event)
  | 0 => none
  | fuel + 1 =>
    if connect_ok reachableAfter attempt then
      some [Event.tcpConnect endpoint true, Event.printLn FOUND_MSG]
    else
      match wait_for_jaeger_loop reachableAfter endpoint (attempt + 1) fuel with
      | none => none
      | some evs =>
        some (Event.tcpConnect endpoint false :: Event.printLn WAITING_MSG ::
          Event.sleepSecs 1 :: evs)

/-- Closed form of the wait-loop event list for a collector that becomes
reachable after exactly k failed attempts: k failed rounds, each one failed
connect, the waiting print and a one-second sleep, then the successful connect
and the found print. -/
def wait_events (endpoint : String) : Nat → List Event
  | 0 => [Event.tcpConnect endpoint true, Event.printLn FOUND_MSG]
  | k + 1 =>
    Event.tcpConnect endpoint false :: Event.printLn WAITING_MSG ::
      Event.sleepSecs 1 :: wait_events endpoint k

/-- Rust: fn init_jaeger (jaeger.rs, lines 13-33): build the EnvFilter layer
from the resolved filter, a default fmt layer, install the Jaeger agent
pipeline at hostname:6831 under the fixed service name, and install the
registry of filter + fmt + otel layers via SubscriberInitExt::init, which
panics when a global default subscriber is already set. -/
def init_jaeger (w : World) (config : TracingConfig) : Outcome × List Event :=
  let filter := env_filter config w.rustLog
  let endpt := config.jaeger_hostname ++ ":" ++ toString DEFAULT_JAEGER_PORT
  let sub := Subscriber.registry
    [RegLayer.envFilterLayer filter,
     RegLayer.fmtLayer default_fmt_layer,
     RegLayer.otelLayer endpt JAEGER_SERVICE_NAME]
  if w.installed then
    (Outcome.panic PANIC_SUBSCRIBER_INIT,
      [Event.installJaegerPipeline endpt JAEGER_SERVICE_NAME,
       Event.setGlobalDefaultAttempt sub])
  else
    (Outcome.ok none,
      [Event.installJaegerPipeline endpt JAEGER_SERVICE_NAME,
       Event.setGlobalDefaultAttempt sub])

/-- Rust: fn init_tracing (tracing_setup.rs, lines 82-109), as compiled WITH
the jaeger feature. In the JaegerLive arm, wait_for_jaeger blocks first; if the
collector never becomes reachable the call diverges inside the wait loop
having emitted only wait-loop events. On the Console path the () return of
configure_console_logging becomes the None result. -/
def init_tracing (w : World) (config : TracingConfig) : Outcome × List Event :=
  match config.tracing_mode with
  | TracingMode.Console =>
    let (o, evs) := configure_console_logging w config
    (match o with
     | Outcome.ok _ => Outcome.ok none
     | o => o, evs)
  | TracingMode.File => configure_file_logging w config
  | TracingMode.ConsoleAndFile => configure_combined_logging w config
  | TracingMode.JaegerLive =>
    match w.jaegerReachableAfter with
    | none => (Outcome.diverge, [])
    | some k =>
      let waitEvs := wait_events (config.jaeger_hostname ++ ":16686") k
      let (o, evs) := init_jaeger w config
      (o, waitEvs ++ Event.printLn JAEGER_INIT_MSG :: evs)

/-- Rust: fn init_tracing as compiled WITHOUT the jaeger feature: the
cfg-gated JaegerLive match arm is removed along with the enum variant, leaving
a three-arm match. The cfg(not(feature)) block inside that arm — the warning
println! of tracing_setup.rs, line 103 — is removed with the arm, so no build
of the crate contains a reachable copy of it. -/
def init_tracing_nojaeger (w : World) (mode : TracingModeNoJaeger)
    (config : TracingConfig) : Outcome × List Event :=
  match mode with
  | TracingModeNoJaeger.Console =>
    let (o, evs) := configure_console_logging w config
    (match o with
     | Outcome.ok _ => Outcome.ok none
     | o => o, evs)
  | TracingModeNoJaeger.File => configure_file_logging w config
  | TracingModeNoJaeger.ConsoleAndFile => configure_combined_logging w config

/-- The warning println! payload of the cfg(not(feature)) block
(tracing_setup.rs, line 103). -/
def JAEGER_DISABLED_WARNING : String :=
  "Jaeger tracing is not enabled. Please enable the \x27jaeger\x27 feature. The app will still run, but you won\x27t see any output"

/-- The subscribers a run attempts to install, read off its event list. -/
def installedSubscribers (evs : List Event) : List Subscriber :=
  evs.filterMap fun e =>
    match e with
    | Event.setGlobalDefaultAttempt sub => some sub
    | _ => none

/-- Concrete clock reading 2025-04-08 17:32:09 used by witnesses. -/
def t0 : LocalTime := ⟨4, 8, 2025, 17, 32, 9⟩

/-- A fresh process: no subscriber installed, RUST_LOG unset, collector
reachable at once. -/
def wFresh : World := ⟨false, none, t0, some 0⟩

/-- A process in which a global subscriber is already installed. -/
def wInstalled : World := ⟨true, none, t0, some 0⟩

/-- A fresh process whose collector becomes reachable after two failed
attempts. -/
def wJaeger : World := ⟨false, none, t0, some 2⟩

/-- The default configuration: Console mode. -/
def cConsole : TracingConfig := TracingConfig.default

/-- The default configuration switched to File mode. -/
def cFile : TracingConfig :=
  { TracingConfig.default with tracing_mode := TracingMode.File }

/-- The default configuration switched to ConsoleAndFile mode. -/
def cCombined : TracingConfig :=
  { TracingConfig.default with tracing_mode := TracingMode.ConsoleAndFile }

/-- The default configuration switched to JaegerLive mode. -/
def cJaeger : TracingConfig :=
  { TracingConfig.default with tracing_mode := TracingMode.JaegerLive }

/-- The default configuration with an explicit filter expression. -/
def cWarnFilter : TracingConfig :=
  { TracingConfig.default with env_filter := some "warn" }

/-- C4: env_filter returns a present config.env_filter verbatim regardless of
the environment; with config.env_filter absent it returns the RUST_LOG value
verbatim when set, and the collaborator default directive when unset. The
embedding takes the environment as an explicit argument, so the resolution is
a pure function of config and environment. -/
theorem c4_env_filter_resolution :
    (∀ (c : TracingConfig) (rl : Option String) (s : String),
      c.env_filter = some s → env_filter c rl = s)
    ∧ (∀ (c : TracingConfig) (e : String),
      c.env_filter = none → env_filter c (some e) = e)
    ∧ (∀ c : TracingConfig,
      c.env_filter = none → env_filter c none = DEFAULT_ENV_FILTER_DIRECTIVE) := by
  refine ⟨fun c rl s h => ?_, fun c e h => ?_, fun c h => ?_⟩ <;>
    simp [env_filter, h, envFilterFromDefaultEnv]

/-- Witness for C4 at concrete configurations and environments. -/
theorem c4_env_filter_resolution_witness :
    env_filter cWarnFilter (some "debug,core=trace") = "warn"
    ∧ env_filter cConsole (some "debug,core=trace") = "debug,core=trace"
    ∧ env_filter cConsole none = DEFAULT_ENV_FILTER_DIRECTIVE :=
  ⟨c4_env_filter_resolution.1 cWarnFilter (some "debug,core=trace") "warn" rfl,
   c4_env_filter_resolution.2.1 cConsole "debug,core=trace" rfl,
   c4_env_filter_resolution.2.2 cConsole rfl⟩

/-- C5: create_log_filename is a pure function of the directory and the clock
reading, returning directory ++ "/log_" ++ timestamp ++ ".txt" with the
timestamp formatted month-day-year_hour-minute-second; at 2025-04-08 17:32:09
with directory "./logs" it returns "./logs/log_04-08-2025_17-32-09.txt". -/
theorem c5_create_log_filename_deterministic :
    (∀ (d : String) (t : LocalTime),
      create_log_filename d t =
        d ++ "/log_" ++
          (pad2 t.month ++ "-" ++ pad2 t.day ++ "-" ++ pad4 t.year ++ "_" ++
            pad2 t.hour ++ "-" ++ pad2 t.minute ++ "-" ++ pad2 t.second) ++ ".txt")
    ∧ create_log_filename "./logs" ⟨4, 8, 2025, 17, 32, 9⟩ =
        "./logs/log_04-08-2025_17-32-09.txt" :=
  ⟨fun d t => rfl, by decide⟩

/-- C1: whenever init_tracing returns (a fresh process, and for JaegerLive a
collector that eventually becomes reachable), it returns Some guard exactly
when the mode is File or ConsoleAndFile, and None for Console and JaegerLive. -/
theorem c1_guard_iff_file_sink (w : World) (c : TracingConfig)
    (hInst : w.installed = false)
    (hReach : c.tracing_mode = TracingMode.JaegerLive → w.jaegerReachableAfter ≠ none) :
    ∃ g, (init_tracing w c).1 = Outcome.ok g ∧
      (g.isSome = true ↔
        (c.tracing_mode = TracingMode.File ∨ c.tracing_mode = TracingMode.ConsoleAndFile)) := by
  cases hm : c.tracing_mode with
  | Console =>
    refine ⟨none, ?_, ?_⟩ <;>
      simp [init_tracing, configure_console_logging, hm, hInst]
  | File =>
    refine ⟨some (WorkerGuard.mk (create_log_filename c.log_dir w.now)), ?_, ?_⟩ <;>
      simp [init_tracing, configure_file_logging, file_writer, hm, hInst]
  | ConsoleAndFile =>
    refine ⟨some (WorkerGuard.mk (create_log_filename c.log_dir w.now)), ?_, ?_⟩ <;>
      simp [init_tracing, configure_combined_logging, file_writer, hm, hInst]
  | JaegerLive =>
    obtain ⟨k, hk⟩ := Option.ne_none_iff_exists'.mp (hReach hm)
    refine ⟨none, ?_, ?_⟩ <;>
      simp [init_tracing, init_jaeger, hm, hk, hInst]

/-- Witness for C1: in a fresh process in File mode the initializer returns a
guard. -/
theorem c1_guard_iff_file_sink_witness :
    ∃ g, (init_tracing wFresh cFile).1 = Outcome.ok g ∧
      (g.isSome = true ↔
        (cFile.tracing_mode = TracingMode.File ∨
          cFile.tracing_mode = TracingMode.ConsoleAndFile)) :=
  c1_guard_iff_file_sink wFresh cFile rfl (by decide)

/-- C2: in a process where a global default subscriber is already installed,
init_tracing panics in every mode (for JaegerLive, once the readiness wait
completes): the second installation attempt is fatal, with a panic payload
reporting that a global default trace dispatcher has already been set. -/
theorem c2_second_init_fatal (w : World) (c : TracingConfig)
    (hInst : w.installed = true)
    (hReach : c.tracing_mode = TracingMode.JaegerLive → w.jaegerReachableAfter ≠ none) :
    (init_tracing w c).1 = Outcome.panic PANIC_SET_GLOBAL_DEFAULT ∨
      (init_tracing w c).1 = Outcome.panic PANIC_SUBSCRIBER_INIT := by
  cases hm : c.tracing_mode with
  | Console =>
    exact Or.inl (by simp [init_tracing, configure_console_logging, hm, hInst])
  | File =>
    exact Or.inl (by simp [init_tracing, configure_file_logging, file_writer, hm, hInst])
  | ConsoleAndFile =>
    exact Or.inl (by simp [init_tracing, configure_combined_logging, file_writer, hm, hInst])
  | JaegerLive =>
    obtain ⟨k, hk⟩ := Option.ne_none_iff_exists'.mp (hReach hm)
    exact Or.inr (by simp [init_tracing, init_jaeger, hm, hk, hInst])

/-- Witness for C2: a second initialization in ConsoleAndFile mode panics. -/
theorem c2_second_init_fatal_witness :
    (init_tracing wInstalled cCombined).1 = Outcome.panic PANIC_SET_GLOBAL_DEFAULT ∨
      (init_tracing wInstalled cCombined).1 = Outcome.panic PANIC_SUBSCRIBER_INIT :=
  c2_second_init_fatal wInstalled cCombined rfl (by decide)

/-- C3: in ConsoleAndFile mode the installed topology is a single registry
holding the console fmt layer, the file fmt layer and exactly one EnvFilter
layer whose directive is the one resolved filter string — one filter decision
gating both destinations — and both fmt layers carry the same json flag,
equal to config.json, with no per-destination override. -/
theorem c3_combined_one_filter_same_json (w : World) (c : TracingConfig)
    (hm : c.tracing_mode = TracingMode.ConsoleAndFile) :
    ∃ sl fl : FmtLayerSpec,
      installedSubscribers (init_tracing w c).2 =
        [Subscriber.registry
          [RegLayer.fmtLayer sl, RegLayer.fmtLayer fl,
           RegLayer.envFilterLayer (env_filter c w.rustLog)]]
      ∧ Subscriber.filterDirectives
          (Subscriber.registry
            [RegLayer.fmtLayer sl, RegLayer.fmtLayer fl,
             RegLayer.envFilterLayer (env_filter c w.rustLog)]) =
          [env_filter c w.rustLog]
      ∧ sl.json = c.json ∧ fl.json = c.json
      ∧ sl.writer = SinkWriter.stdout
      ∧ fl.writer =
          SinkWriter.nonBlockingFile (create_log_filename c.log_dir w.now) c.lossy_file := by
  refine ⟨⟨SinkWriter.stdout, DEFAULT_SPAN_EVENTS, c.ansi_console, c.json⟩,
    ⟨SinkWriter.nonBlockingFile (create_log_filename c.log_dir w.now) c.lossy_file,
      DEFAULT_SPAN_EVENTS, c.ansi_file, c.json⟩, ?_, ?_, rfl, rfl, rfl, rfl⟩
  · cases hw : w.installed <;>
      simp [init_tracing, configure_combined_logging, file_writer, hm, hw,
        installedSubscribers]
  · simp [Subscriber.filterDirectives]

/-- Witness for C3 at a concrete ConsoleAndFile configuration. -/
theorem c3_combined_one_filter_same_json_witness :
    ∃ sl fl : FmtLayerSpec,
      installedSubscribers (init_tracing wFresh cCombined).2 =
        [Subscriber.registry
          [RegLayer.fmtLayer sl, RegLayer.fmtLayer fl,
           RegLayer.envFilterLayer (env_filter cCombined wFresh.rustLog)]]
      ∧ Subscriber.filterDirectives
          (Subscriber.registry
            [RegLayer.fmtLayer sl, RegLayer.fmtLayer fl,
             RegLayer.envFilterLayer (env_filter cCombined wFresh.rustLog)]) =
          [env_filter cCombined wFresh.rustLog]
      ∧ sl.json = cCombined.json ∧ fl.json = cCombined.json
      ∧ sl.writer = SinkWriter.stdout
      ∧ fl.writer =
          SinkWriter.nonBlockingFile
            (create_log_filename cCombined.log_dir wFresh.now) cCombined.lossy_file :=
  c3_combined_one_filter_same_json wFresh cCombined rfl

/-- C6: in Console, File and ConsoleAndFile modes, every formatting layer of
the installed subscriber has span events DEFAULT_SPAN_EVENTS = FmtSpan::CLOSE:
an event only at span close, none at creation, enter or exit — and this holds
for every configuration, so no configuration field changes it. -/
theorem c6_span_events_close_only (w : World) (c : TracingConfig)
    (hm : c.tracing_mode = TracingMode.Console ∨ c.tracing_mode = TracingMode.File ∨
      c.tracing_mode = TracingMode.ConsoleAndFile) :
    ∀ sub ∈ installedSubscribers (init_tracing w c).2,
      ∀ l ∈ Subscriber.fmtLayers sub,
        l.spanEvents = DEFAULT_SPAN_EVENTS
        ∧ l.spanEvents.onClose = true ∧ l.spanEvents.onNew = false
        ∧ l.spanEvents.onEnter = false ∧ l.spanEvents.onExit = false := by
  intro sub hsub l hl
  rcases hm with hm | hm | hm <;>
  · cases hw : w.installed <;>
    · simp [init_tracing, configure_console_logging, configure_file_logging,
        configure_combined_logging, file_writer, hm, hw, installedSubscribers] at hsub
      subst hsub
      simp [Subscriber.fmtLayers] at hl
      first
      | (subst hl; exact ⟨rfl, rfl, rfl, rfl, rfl⟩)
      | (rcases hl with hl | hl <;> subst hl <;> exact ⟨rfl, rfl, rfl, rfl, rfl⟩)

/-- Witness for C6: the layer installed by a concrete Console run is
close-only. -/
theorem c6_span_events_close_only_witness :
    FmtLayerSpec.spanEvents
        ⟨SinkWriter.stdout, DEFAULT_SPAN_EVENTS, true, false⟩ = DEFAULT_SPAN_EVENTS
      ∧ (FmtLayerSpec.spanEvents
          ⟨SinkWriter.stdout, DEFAULT_SPAN_EVENTS, true, false⟩).onClose = true
      ∧ (FmtLayerSpec.spanEvents
          ⟨SinkWriter.stdout, DEFAULT_SPAN_EVENTS, true, false⟩).onNew = false
      ∧ (FmtLayerSpec.spanEvents
          ⟨SinkWriter.stdout, DEFAULT_SPAN_EVENTS, true, false⟩).onEnter = false
      ∧ (FmtLayerSpec.spanEvents
          ⟨SinkWriter.stdout, DEFAULT_SPAN_EVENTS, true, false⟩).onExit = false :=
  c6_span_events_close_only wFresh cConsole (Or.inl rfl)
    (Subscriber.fmtSub "" ⟨SinkWriter.stdout, DEFAULT_SPAN_EVENTS, true, false⟩)
    (by decide)
    ⟨SinkWriter.stdout, DEFAULT_SPAN_EVENTS, true, false⟩
    (by decide)

/-- C9: in File and ConsoleAndFile modes with a subscriber already installed,
the run still creates the parent directory and creates (truncating) the log
file at the computed path — both before the installation attempt, which then
panics — so the filesystem is changed even though the call is fatal. -/
theorem c9_file_truncated_before_fatal_install (w : World) (c : TracingConfig)
    (hInst : w.installed = true)
    (hm : c.tracing_mode = TracingMode.File ∨ c.tracing_mode = TracingMode.ConsoleAndFile) :
    ∃ sub msg,
      (init_tracing w c).2 =
        [Event.createDirAll (parent_of (create_log_filename c.log_dir w.now)),
         Event.createFile (create_log_filename c.log_dir w.now),
         Event.setGlobalDefaultAttempt sub]
      ∧ (init_tracing w c).1 = Outcome.panic msg := by
  rcases hm with hm | hm
  · exact ⟨Subscriber.fmtSub (env_filter c w.rustLog)
        ⟨SinkWriter.nonBlockingFile (create_log_filename c.log_dir w.now) c.lossy_file,
          DEFAULT_SPAN_EVENTS, c.ansi_file, c.json⟩,
      PANIC_SET_GLOBAL_DEFAULT,
      by simp [init_tracing, configure_file_logging, file_writer, hm, hInst],
      by simp [init_tracing, configure_file_logging, file_writer, hm, hInst]⟩
  · exact ⟨Subscriber.registry
        [RegLayer.fmtLayer
          ⟨SinkWriter.stdout, DEFAULT_SPAN_EVENTS, c.ansi_console, c.json⟩,
         RegLayer.fmtLayer
          ⟨SinkWriter.nonBlockingFile (create_log_filename c.log_dir w.now) c.lossy_file,
            DEFAULT_SPAN_EVENTS, c.ansi_file, c.json⟩,
         RegLayer.envFilterLayer (env_filter c w.rustLog)],
      PANIC_SET_GLOBAL_DEFAULT,
      by simp [init_tracing, configure_combined_logging, file_writer, hm, hInst],
      by simp [init_tracing, configure_combined_logging, file_writer, hm, hInst]⟩

/-- Witness for C9: a concrete second initialization in File mode truncates
the log file and then panics. -/
theorem c9_file_truncated_before_fatal_install_witness :
    ∃ sub msg,
      (init_tracing wInstalled cFile).2 =
        [Event.createDirAll
          (parent_of (create_log_filename cFile.log_dir wInstalled.now)),
         Event.createFile (create_log_filename cFile.log_dir wInstalled.now),
         Event.setGlobalDefaultAttempt sub]
      ∧ (init_tracing wInstalled cFile).1 = Outcome.panic msg :=
  c9_file_truncated_before_fatal_install wInstalled cFile rfl (Or.inl rfl)

/-- If the collector never becomes reachable, the wait loop never finishes,
whatever fuel it is given. -/
theorem wait_for_jaeger_loop_unreachable (endpoint : String) :
    ∀ fuel attempt, wait_for_jaeger_loop none endpoint attempt fuel = none := by
  intro fuel
  induction fuel with
  | zero => intro attempt; rfl
  | succ n ih =>
    intro attempt
    simp [wait_for_jaeger_loop, connect_ok, ih (attempt + 1)]

/-- With the collector becoming reachable at attempt a + k and the loop
starting at attempt a with more than k units of fuel, the while loop finishes
and emits exactly the closed-form wait_events list for k failed rounds. -/
theorem wait_for_jaeger_loop_reachable (endpoint : String) :
    ∀ k a fuel, k < fuel →
      wait_for_jaeger_loop (some (a + k)) endpoint a fuel =
        some (wait_events endpoint k) := by
  intro k
  induction k with
  | zero =>
    intro a fuel hf
    obtain ⟨m, rfl⟩ := Nat.exists_eq_succ_of_ne_zero (Nat.pos_iff_ne_zero.mp hf)
    simp [wait_for_jaeger_loop, connect_ok, wait_events]
  | succ n ih =>
    intro a fuel hf
    obtain ⟨m, rfl⟩ := Nat.exists_eq_succ_of_ne_zero
      (Nat.pos_iff_ne_zero.mp (Nat.lt_of_le_of_lt (Nat.zero_le _) hf))
    have hconn : connect_ok (some (a + (n + 1))) a = false := by
      simp only [connect_ok, decide_eq_false_iff_not]
      omega
    have hrec := ih (a + 1) m (Nat.lt_of_succ_lt_succ hf)
    have harith : a + 1 + n = a + (n + 1) := by omega
    rw [harith] at hrec
    simp [wait_for_jaeger_loop, hconn, hrec, wait_events]

/-- No event of the wait loop builds or installs a sink: it only attempts TCP
connections, prints and sleeps. -/
theorem wait_events_no_sink (endpoint : String) :
    ∀ k, (wait_events endpoint k).all (fun e => !e.buildsOrInstallsSink) = true := by
  intro k
  induction k with
  | zero => rfl
  | succ n ih => simp_all [wait_events, Event.buildsOrInstallsSink]

/-- C7: in JaegerLive mode the readiness wait comes first and gates the rest.
If the collector becomes reachable after k failed attempts, the event trace is
exactly the wait-loop events — k rounds of one failed TCP connect to
hostname:16686, the waiting print and a one-second sleep, then the successful
connect and the found print, none of which builds or installs a sink —
followed by the announcement print and the init_jaeger events; the fuelled
while-loop embedding agrees with that closed form. If the collector is never
reachable, the while loop never finishes for any fuel and the call diverges
with no sink built or installed. -/
theorem c7_jaeger_readiness_wait_gates_init (w : World) (c : TracingConfig)
    (hm : c.tracing_mode = TracingMode.JaegerLive) :
    (∀ k, w.jaegerReachableAfter = some k →
      (init_tracing w c).2 =
        wait_events (c.jaeger_hostname ++ ":16686") k ++
          Event.printLn JAEGER_INIT_MSG :: (init_jaeger w c).2
      ∧ wait_for_jaeger_loop (some k) (c.jaeger_hostname ++ ":16686") 0 (k + 1) =
          some (wait_events (c.jaeger_hostname ++ ":16686") k)
      ∧ (wait_events (c.jaeger_hostname ++ ":16686") k).all
          (fun e => !e.buildsOrInstallsSink) = true)
    ∧ (w.jaegerReachableAfter = none →
      (init_tracing w c).1 = Outcome.diverge
      ∧ (∀ fuel, wait_for_jaeger_loop none (c.jaeger_hostname ++ ":16686") 0 fuel = none)
      ∧ (init_tracing w c).2.all (fun e => !e.buildsOrInstallsSink) = true) := by
  constructor
  · intro k hk
    refine ⟨by simp [init_tracing, hm, hk], ?_, wait_events_no_sink _ k⟩
    have := wait_for_jaeger_loop_reachable (c.jaeger_hostname ++ ":16686") k 0 (k + 1)
      (Nat.lt_succ_self k)
    simpa using this
  · intro hk
    refine ⟨by simp [init_tracing, hm, hk],
      fun fuel => wait_for_jaeger_loop_unreachable _ fuel 0,
      by simp [init_tracing, hm, hk]⟩

/-- Witness for C7 at a concrete JaegerLive configuration whose collector
becomes reachable after two failed attempts. -/
theorem c7_jaeger_readiness_wait_gates_init_witness :
    (init_tracing wJaeger cJaeger).2 =
      wait_events (cJaeger.jaeger_hostname ++ ":16686") 2 ++
        Event.printLn JAEGER_INIT_MSG :: (init_jaeger wJaeger cJaeger).2
    ∧ wait_for_jaeger_loop (some 2) (cJaeger.jaeger_hostname ++ ":16686") 0 3 =
        some (wait_events (cJaeger.jaeger_hostname ++ ":16686") 2)
    ∧ (wait_events (cJaeger.jaeger_hostname ++ ":16686") 2).all
        (fun e => !e.buildsOrInstallsSink) = true :=
  (c7_jaeger_readiness_wait_gates_init wJaeger cJaeger rfl).1 2 rfl

/-- installedSubscribers distributes over list append. -/
theorem installedSubscribers_append (a b : List Event) :
    installedSubscribers (a ++ b) = installedSubscribers a ++ installedSubscribers b := by
  simp [installedSubscribers]

/-- The wait loop installs no subscriber. -/
theorem installedSubscribers_wait_events (endpoint : String) :
    ∀ k, installedSubscribers (wait_events endpoint k) = [] := by
  intro k
  induction k with
  | zero => rfl
  | succ n ih => simpa [wait_events, installedSubscribers] using ih

/-- C10: in JaegerLive mode the installed registry's only formatting layer is
the collaborator-default fmt layer, whose span-event setting is FmtSpan::NONE,
not the close-only DEFAULT_SPAN_EVENTS policy the other three modes apply. -/
theorem c10_jaeger_fmt_layer_default_span_events (w : World) (c : TracingConfig)
    (k : Nat) (hm : c.tracing_mode = TracingMode.JaegerLive)
    (hk : w.jaegerReachableAfter = some k) :
    ∃ sub, installedSubscribers (init_tracing w c).2 = [sub]
      ∧ Subscriber.fmtLayers sub = [default_fmt_layer]
      ∧ default_fmt_layer.spanEvents = FMT_SPAN_NONE
      ∧ FMT_SPAN_NONE ≠ DEFAULT_SPAN_EVENTS := by
  refine ⟨Subscriber.registry
      [RegLayer.envFilterLayer (env_filter c w.rustLog),
       RegLayer.fmtLayer default_fmt_layer,
       RegLayer.otelLayer (c.jaeger_hostname ++ ":" ++ toString DEFAULT_JAEGER_PORT)
         JAEGER_SERVICE_NAME],
    ?_, by simp [Subscriber.fmtLayers], rfl, by decide⟩
  have htr : (init_tracing w c).2 =
      wait_events (c.jaeger_hostname ++ ":16686") k ++
        Event.printLn JAEGER_INIT_MSG :: (init_jaeger w c).2 := by
    simp [init_tracing, hm, hk]
  rw [htr, installedSubscribers_append,
    installedSubscribers_wait_events (c.jaeger_hostname ++ ":16686") k]
  cases hw : w.installed <;> simp [init_jaeger, hw, installedSubscribers]

/-- Witness for C10 at a concrete JaegerLive configuration. -/
theorem c10_jaeger_fmt_layer_default_span_events_witness :
    ∃ sub, installedSubscribers (init_tracing wJaeger cJaeger).2 = [sub]
      ∧ Subscriber.fmtLayers sub = [default_fmt_layer]
      ∧ default_fmt_layer.spanEvents = FMT_SPAN_NONE
      ∧ FMT_SPAN_NONE ≠ DEFAULT_SPAN_EVENTS :=
  c10_jaeger_fmt_layer_default_span_events wJaeger cJaeger 2 rfl rfl

/-- C8: in the crate compiled without the jaeger feature, the TracingMode enum
has only the Console, File and ConsoleAndFile variants — the TraceCollectorLive
branch cannot be selected at all — and the initializer of that build prints
nothing: in particular the "Jaeger tracing is not enabled" warning of
tracing_setup.rs, line 103, which sits inside the feature-gated JaegerLive
match arm, is removed together with the arm and never executes in any build. -/
theorem c8_compiled_out_warning_is_dead_code :
    (∀ mode : TracingModeNoJaeger,
      mode = TracingModeNoJaeger.Console ∨ mode = TracingModeNoJaeger.File ∨
        mode = TracingModeNoJaeger.ConsoleAndFile)
    ∧ (∀ (w : World) (mode : TracingModeNoJaeger) (c : TracingConfig),
      (init_tracing_nojaeger w mode c).2.all (fun e => !e.isPrint) = true)
    ∧ (∀ (w : World) (mode : TracingModeNoJaeger) (c : TracingConfig),
      (init_tracing_nojaeger w mode c).2.all
        (fun e => !decide (e = Event.printLn JAEGER_DISABLED_WARNING)) = true) := by
  refine ⟨fun mode => ?_, fun w mode c => ?_, fun w mode c => ?_⟩
  · cases mode
    · exact Or.inl rfl
    · exact Or.inr (Or.inl rfl)
    · exact Or.inr (Or.inr rfl)
  · cases mode <;> cases hw : w.installed <;>
      simp [init_tracing_nojaeger, configure_console_logging, configure_file_logging,
        configure_combined_logging, file_writer, hw, Event.isPrint]
  · cases mode <;> cases hw : w.installed <;>
      simp [init_tracing_nojaeger, configure_console_logging, configure_file_logging,
        configure_combined_logging, file_writer, hw]
